import Mathlib

/-!
Verification development for the retrieval engine of the
Student-Learning-Career-Assistant repository.

The definitions below are a shallow embedding of the Python source:

* `chunk_text`, `add_document`, `vs_query`, `delete_document` embed the
  methods of `VectorStore` in `backend/core/vector_store.py`;
* `get_rag_content`, `get_full_text_content` and
  `get_content_for_generation` embed the methods of `RAGRetriever` in
  `backend/core/rag_retriever.py`.

Python strings are modelled as `List Char` (`PyStr`), string indices as
`Int` (Python slice indices may be negative), floats that appear only in
exact comparisons (`last_sep > chunk_size * 0.5`) are replaced by the
equivalent exact integer comparison, and embedding vectors and distances
are modelled over `ℚ`.  Collaborator calls that may raise are modelled as
`Except PyErr`-valued functions; a Python `while` loop is modelled with an
explicit fuel argument, `none` meaning that the loop has not terminated
within the given fuel.
-/

/-- Python strings, modelled as lists of characters (`len` = list length,
which matches Python's code-point count). -/
abbrev PyStr := List Char

/-- Coerce a Lean string literal to the `PyStr` model. -/
def pyStr (s : String) : PyStr := s.data

/-- The whitespace characters stripped by Python's `str.strip()` (ASCII
subset: space, tab, newline, carriage return, vertical tab, form feed). -/
def pyIsSpace (c : Char) : Bool :=
  c == ' ' || c == '\t' || c == '\n' || c == '\r' ||
    c == Char.ofNat 11 || c == Char.ofNat 12

/-- Python `str.strip()`: drop whitespace from both ends. -/
def strip (l : PyStr) : PyStr :=
  ((l.dropWhile pyIsSpace).reverse.dropWhile pyIsSpace).reverse

/-- Normalize one Python slice index against a length: negative indices
count from the end (clamped at 0), non-negative ones are clamped at the
length. -/
def sliceIdx (len : Nat) (i : Int) : Nat :=
  if i < 0 then ((len : Int) + i).toNat else min i.toNat len

/-- Python slicing `l[a:b]` with `int` indices. -/
def pySlice (l : PyStr) (a b : Int) : PyStr :=
  (l.take (sliceIdx l.length b)).drop (sliceIdx l.length a)

/-- Helper for `rfind`: scan candidate start positions downward from `i`. -/
def rfindFrom (s pat : List Char) : Nat → Int
  | 0 => if pat.isPrefixOf s then 0 else -1
  | i + 1 => if pat.isPrefixOf (s.drop (i + 1)) then ((i + 1 : Nat) : Int)
             else rfindFrom s pat i

/-- Python `s.rfind(pat)`: the largest index at which `pat` occurs in `s`,
or `-1` when it does not occur. -/
def rfind (s pat : List Char) : Int := rfindFrom s pat s.length

/-- The six sentence-terminating delimiters of `VectorStore.chunk_text`,
in the order the Python `for sep in [...]` loop tries them. -/
def sentenceSeps : List (List Char) :=
  [['.', ' '], ['.', '\n'], ['!', ' '], ['!', '\n'], ['?', ' '], ['?', '\n']]

/-- The `for sep in [...]` loop of `chunk_text`: for each separator in
order, compute `last_sep = window.rfind(sep)`; if `last_sep > chunk_size * 0.5`
(exactly: `2 * last_sep > chunk_size`), the new window end offset is
`last_sep + len(sep)` and the loop breaks.  Returns `none` when no
separator qualifies. -/
def findSnap (win : List Char) (chunk_size : Nat) : List (List Char) → Option Int
  | [] => none
  | sep :: rest =>
      let ls := rfind win sep
      if 2 * ls > (chunk_size : Int) then some (ls + sep.length)
      else findSnap win chunk_size rest

/-- One iteration of the `while` loop body of `chunk_text`: compute the
window end `e0 = min(start + chunk_size, text_len)`, snap it to a sentence
boundary when the window does not reach the end of the text, collect the
stripped chunk when it is non-empty, and advance `start` to `e - overlap`
(or to `text_len` when the window reached the end). -/
def chunkIter (text : PyStr) (chunk_size overlap : Nat) (start : Int)
    (acc : List PyStr) : Int × List PyStr :=
  let e0 : Int := min (start + (chunk_size : Int)) (text.length : Int)
  let e : Int :=
    if e0 < (text.length : Int) then
      match findSnap (pySlice text start e0) chunk_size sentenceSeps with
      | some off => start + off
      | none => e0
    else e0
  let chunk := strip (pySlice text start e)
  let acc' := if chunk.isEmpty then acc else chunk :: acc
  let start' : Int :=
    if e < (text.length : Int) then e - (overlap : Int)
    else (text.length : Int)
  (start', acc')

/-- The `while start < text_len` loop of `VectorStore.chunk_text`, with an
explicit fuel: `none` means the loop has not terminated within `fuel`
iterations.  `start` is an `Int` because Python's `start = end - overlap`
may go negative. -/
def chunk_text_aux (text : PyStr) (chunk_size overlap : Nat) :
    Nat → Int → List PyStr → Option (List PyStr)
  | 0, start, acc =>
      if start < (text.length : Int) then none else some acc.reverse
  | fuel + 1, start, acc =>
      if start < (text.length : Int) then
        chunk_text_aux text chunk_size overlap fuel
          (chunkIter text chunk_size overlap start acc).1
          (chunkIter text chunk_size overlap start acc).2
      else some acc.reverse

/-- `VectorStore.chunk_text(text, chunk_size=1000, overlap=200)`.  The
Python method performs no parameter validation and runs an unbounded
`while` loop; `fuel` bounds the number of iterations we are willing to
model, with `none` meaning the loop had not terminated. -/
def chunk_text (text : PyStr) (chunk_size : Nat := 1000) (overlap : Nat := 200)
    (fuel : Nat) : Option (List PyStr) :=
  chunk_text_aux text chunk_size overlap fuel 0 []

/-- Modelled from the spec's words (for comparison with the code's
`findSnap`): the window ends just after the *latest* qualifying delimiter
occurrence over all six delimiters, a qualifying occurrence being one whose
start index `ls` satisfies `2 * ls > chunk_size` (the last 50% of the
window). -/
def specLatestSnapEnd (win : List Char) (chunk_size : Nat) : Option Int :=
  let cands := sentenceSeps.filterMap (fun sep =>
    let ls := rfind win sep
    if 2 * ls > (chunk_size : Int) then some (ls + (sep.length : Int)) else none)
  cands.foldl (fun acc x =>
    match acc with
    | none => some x
    | some y => some (max x y)) none

/-- Modelled from the spec's words, amended to the code's behavior: the
window ends just after the last occurrence of the *first* delimiter in the
fixed order that has a qualifying occurrence in the last 50% of the
window. -/
def specFirstSnapEnd (win : List Char) (chunk_size : Nat) : Option Int :=
  match sentenceSeps.find? (fun sep => 2 * rfind win sep > (chunk_size : Int)) with
  | some sep => some (rfind win sep + (sep.length : Int))
  | none => none

/-- A Python exception value, reduced to its message (`str(e)`). -/
structure PyErr where
  msg : String
deriving DecidableEq

/-- The fixed metadata schema `chunk_text`/`add_document` attach to every
stored chunk, plus caller-supplied tags (modelled as string pairs, since
`add_document` stringifies non-primitive values). -/
structure ChunkMeta where
  document_id : String
  chunk_index : Nat
  total_chunks : Nat
  chunk_length : Nat
  extra : List (String × String)
deriving DecidableEq

/-- One record of the ChromaDB collection:
`{id: chunk_id, vector, document: text, metadata}`. -/
structure ChromaRecord where
  id : String
  embedding : List ℚ
  document : PyStr
  metadata : ChunkMeta
deriving DecidableEq

/-- Stable insertion by distance: `r` goes after every already-placed
record whose distance is `≤` its own, so ties keep insertion order. -/
def insertByDist (d : ChromaRecord → ℚ) (r : ChromaRecord) :
    List ChromaRecord → List ChromaRecord
  | [] => [r]
  | x :: xs => if d x ≤ d r then x :: insertByDist d r xs else r :: x :: xs

/-- Stable sort of records by ascending distance. -/
def sortByDist (d : ChromaRecord → ℚ) (l : List ChromaRecord) : List ChromaRecord :=
  l.foldl (fun acc x => insertByDist d x acc) []

/-- Modelled from the spec: the external Vector Index collaborator's
similarity query (`collection.query` of ChromaDB) — restrict to the
optional `where` filter on `metadata.document_id`, order by ascending
distance to the query embedding (ties by insertion order), return at most
`n` records.  The distance function is an abstract parameter. -/
def chromaQueryRecords (dist : List ℚ → List ℚ → ℚ) (store : List ChromaRecord)
    (qe : List ℚ) (n : Nat) (filter : Option String) : List ChromaRecord :=
  let cands := match filter with
    | some d => store.filter (fun r => decide (r.metadata.document_id = d))
    | none => store
  (sortByDist (fun r => dist qe r.embedding) cands).take n

/-- Modelled from the spec: the external Vector Index collaborator's
`collection.get(where={"document_id": d})` — every stored record whose
metadata matches, in insertion order. -/
def chromaGet (store : List ChromaRecord) (d : String) : List ChromaRecord :=
  store.filter (fun r => decide (r.metadata.document_id = d))

/-- Modelled from the spec: the external Vector Index collaborator's
`collection.delete(ids=...)` — remove every record whose id is listed. -/
def chromaDelete (store : List ChromaRecord) (ids : List String) : List ChromaRecord :=
  store.filter (fun r => decide (r.id ∉ ids))

/-- The `for` loop of `add_document` that embeds the chunks one by one and
re-raises on the first failure. -/
def embedAll (embed : PyStr → Except PyErr (List ℚ)) :
    List PyStr → Except PyErr (List (List ℚ))
  | [] => .ok []
  | c :: cs =>
      match embed c with
      | .error e => .error e
      | .ok v =>
          match embedAll embed cs with
          | .error e => .error e
          | .ok vs => .ok (v :: vs)

/-- Result dict of `VectorStore.add_document`; absent keys are modelled by
the defaults (`Option.none`, `0`, `[]`). -/
structure AddResult where
  success : Bool
  document_id : Option String := none
  chunk_count : Nat := 0
  chunk_ids : List String := []
  error : Option String := none
deriving DecidableEq

/-- Zip chunk ids, embeddings, texts and metadata into collection records. -/
def buildRecords : List String → List (List ℚ) → List PyStr → List ChunkMeta →
    List ChromaRecord
  | i :: is, e :: es, d :: ds, m :: ms =>
      { id := i, embedding := e, document := d, metadata := m } ::
        buildRecords is es ds ms
  | _, _, _, _ => []

/-- `VectorStore.add_document(document_id, text, metadata)`: chunk with the
default parameters, embed every chunk (aborting on the first embedding
failure), then add all records to the collection in one call.  `embed`
stands for the Gemini `_generate_embedding` collaborator; `fuel` bounds the
chunking loop (`none` = the chunking loop did not terminate). -/
def add_document (embed : PyStr → Except PyErr (List ℚ))
    (store : List ChromaRecord) (document_id : String) (text : PyStr)
    (metadata : Option (List (String × String))) (fuel : Nat) :
    Option (AddResult × List ChromaRecord) :=
  match chunk_text text 1000 200 fuel with
  | none => none
  | some chunks =>
      if chunks.isEmpty then
        some ({ success := false,
                error := some "No valid chunks extracted from text" }, store)
      else
        match embedAll embed chunks with
        | .error e => some ({ success := false, error := some e.msg }, store)
        | .ok embeddings =>
            let chunk_ids := (List.range chunks.length).map
              (fun i => document_id ++ "_chunk_" ++ toString i)
            let metas := chunks.enum.map (fun p =>
              { document_id := document_id
                chunk_index := p.1
                total_chunks := chunks.length
                chunk_length := p.2.length
                extra := metadata.getD [] : ChunkMeta })
            some ({ success := true
                    document_id := some document_id
                    chunk_count := chunks.length
                    chunk_ids := chunk_ids },
                  store ++ buildRecords chunk_ids embeddings chunks metas)

/-- One formatted result item of `VectorStore.query`. -/
structure FormattedItem where
  text : PyStr
  metadata : ChunkMeta
  distance : Option ℚ
  similarity : Option ℚ
deriving DecidableEq

/-- Result dict of `VectorStore.query`. -/
structure VQueryOut where
  success : Bool
  query : PyStr := []
  results : List FormattedItem := []
  count : Nat := 0
  error : Option String := none

/-- `VectorStore.query(query_text, n_results, document_id)`: embed the
query (query mode), build the `where` filter when `document_id` is truthy
(non-`None` and non-empty), query the collection and format each returned
record with `similarity = 1 - distance`.  `embedQuery` stands for
`_generate_query_embedding` and may raise; `dist` is the collection's
distance metric. -/
def vs_query (embedQuery : PyStr → Except PyErr (List ℚ))
    (dist : List ℚ → List ℚ → ℚ) (store : List ChromaRecord)
    (query_text : PyStr) (n_results : Nat) (document_id : Option String) :
    VQueryOut :=
  match embedQuery query_text with
  | .error e => { success := false, error := some e.msg, results := [] }
  | .ok qe =>
      let whereFilter : Option String :=
        match document_id with
        | some d => if d = "" then none else some d
        | none => none
      let recs := chromaQueryRecords dist store qe n_results whereFilter
      let formatted := recs.map (fun r =>
        { text := r.document
          metadata := r.metadata
          distance := some (dist qe r.embedding)
          similarity := some (1 - dist qe r.embedding) : FormattedItem })
      { success := true
        query := query_text
        results := formatted
        count := formatted.length }

/-- Result dict of `VectorStore.delete_document`. -/
structure DeleteResult where
  success : Bool
  deleted_chunks : Nat := 0
  message : Option String := none
  error : Option String := none
deriving DecidableEq

/-- `VectorStore.delete_document(document_id)`: look up all chunk ids of
the document, delete them when there are any, otherwise report
`deleted_chunks = 0` as a success. -/
def delete_document (store : List ChromaRecord) (document_id : String) :
    DeleteResult × List ChromaRecord :=
  let ids := (chromaGet store document_id).map (fun r => r.id)
  if ids.isEmpty then
    ({ success := true, deleted_chunks := 0,
       message := some "No chunks found for document" }, store)
  else
    ({ success := true, deleted_chunks := ids.length }, chromaDelete store ids)


/-- The fields of the Document ORM object that `RAGRetriever` reads.
`vector_db_reference_id` and `file_path` are nullable columns, so they are
`Option String` and tested with Python truthiness (non-`None` and
non-empty).  `content_type` is the enum's `.value` string. -/
structure Document where
  id : String
  vector_db_reference_id : Option String
  content_type : String
  file_url : String
  file_path : Option String

/-- Python truthiness of an optional string: `bool(x)` is true exactly for
a non-`None`, non-empty value. -/
def truthyOptStr : Option String → Bool
  | some s => s ≠ ""
  | none => false

/-- Result dict of the extraction collaborators
(`rag_pipeline.process_youtube`, `rag_pipeline.process_webpage`,
`upload_handler.extract_content_on_demand`): `{success, text?, error?}`. -/
structure ExtractRes where
  success : Bool
  text : Option PyStr := none
  error : Option String := none

/-- The collaborator handles `RAGRetriever` calls through `self.*`; each
call is a Python call that may raise, hence `Except PyErr`. -/
structure RagEnv where
  vquery : PyStr → Nat → Option String → Except PyErr VQueryOut
  process_youtube : String → Except PyErr ExtractRes
  process_webpage : String → Except PyErr ExtractRes
  extract_content_on_demand : String → String → Except PyErr ExtractRes

/-- Result dict of `RAGRetriever._get_rag_content`; keys absent on the
failure path are modelled by the defaults, matching the callers'
`dict.get(..., default)` reads. -/
structure RagContentRes where
  success : Bool
  content : PyStr := []
  chunks_used : Nat := 0
  similarity_scores : List (Option ℚ) := []
  error : Option String := none

/-- Python `sep.join(parts)`. -/
def pyJoin (sep : PyStr) : List PyStr → PyStr
  | [] => []
  | [x] => x
  | x :: y :: xs => x ++ sep ++ pyJoin sep (y :: xs)

/-- The task-specific query lookup table of `_get_rag_content`. -/
def task_queries : List (String × PyStr) :=
  [("summary", pyStr "main points key concepts important information overview"),
   ("notes", pyStr "detailed information concepts explanations examples definitions"),
   ("quiz", pyStr "facts definitions concepts terms important details testable information")]

/-- `task_queries.get(task_type, "key information important content")`. -/
def taskQuery (task_type : String) : PyStr :=
  match task_queries.lookup task_type with
  | some q => q
  | none => pyStr "key information important content"

/-- The body of `_get_rag_content` after the query string has been chosen:
query the vector store for this document, then combine the non-empty chunk
texts with a blank-line separator.  The surrounding `try/except` turns any
raised exception into `{success: False, error: str(e)}`. -/
def ragWithQuery (vquery : PyStr → Nat → Option String → Except PyErr VQueryOut)
    (document_id : String) (query : PyStr) (chunk_count : Nat) : RagContentRes :=
  match vquery query chunk_count (some document_id) with
  | .error e => { success := false, error := some e.msg }
  | .ok out =>
      if out.success = true ∧ out.results ≠ [] then
        let chunks := out.results
        let content_parts := (chunks.map (fun c => c.text)).filter
          (fun t => !t.isEmpty)
        let combined_content := pyJoin (pyStr "\n\n") content_parts
        { success := true
          content := combined_content
          chunks_used := chunks.length
          similarity_scores := chunks.map (fun c => c.similarity) }
      else { success := false, error := some "No chunks retrieved" }

/-- `RAGRetriever._get_rag_content(document_id, task_type, chunk_count)`. -/
def get_rag_content (vquery : PyStr → Nat → Option String → Except PyErr VQueryOut)
    (document_id : String) (task_type : String) (chunk_count : Nat) :
    RagContentRes :=
  ragWithQuery vquery document_id (taskQuery task_type) chunk_count

/-- Result dict of `RAGRetriever._get_full_text_content`. -/
structure FullTextRes where
  success : Bool
  content : PyStr := []
  error : Option String := none

/-- Shared tail of every extraction branch of `_get_full_text_content`:
`content = result.get("text")`, then `if content:` decides between success
and the "No content extracted" failure. -/
def finishExtract (text : Option PyStr) : FullTextRes :=
  match text with
  | some t => if t.isEmpty then { success := false, error := some "No content extracted" }
              else { success := true, content := t }
  | none => { success := false, error := some "No content extracted" }

/-- `RAGRetriever._get_full_text_content(document)`: branch on the
document's content type (YouTube, web article, or an uploaded file path),
call the matching extraction collaborator, and catch every raised
exception as `{success: False, error: str(e)}`. -/
def get_full_text_content (env : RagEnv) (doc : Document) : FullTextRes :=
  if doc.content_type = "youtube" then
    match env.process_youtube doc.file_url with
    | .error e => { success := false, error := some e.msg }
    | .ok r =>
        if r.success then finishExtract r.text
        else { success := false, error := some (r.error.getD "YouTube extraction failed") }
  else if doc.content_type = "article" then
    match env.process_webpage doc.file_url with
    | .error e => { success := false, error := some e.msg }
    | .ok r =>
        if r.success then finishExtract r.text
        else { success := false, error := some (r.error.getD "Article extraction failed") }
  else if truthyOptStr doc.file_path then
    match env.extract_content_on_demand ((doc.file_path).getD "") doc.content_type with
    | .error e => { success := false, error := some e.msg }
    | .ok r =>
        if r.success then finishExtract r.text
        else { success := false, error := some (r.error.getD "File extraction failed") }
  else { success := false, error := some "No file path or URL available" }

/-- The quality floor `self.min_content_length` of `RAGRetriever`. -/
def min_content_length : Nat := 500

/-- The structured result of `get_content_for_generation`. -/
structure RetrievalResult where
  content : PyStr
  source : String
  chunks_used : Nat
  error : Option String := none
  metadata : List (String × String) := []

/-- `RAGRetriever.get_content_for_generation(document, task_type,
chunk_count)`: try RAG retrieval when the document has embeddings and its
assembled content reaches the quality floor; otherwise fall back to
full-text extraction; if that fails too, return the structured
`source = "error"` result. -/
def get_content_for_generation (env : RagEnv) (doc : Document)
    (task_type : String) (chunk_count : Nat) : RetrievalResult :=
  let document_id := doc.id
  let has_embeddings := truthyOptStr doc.vector_db_reference_id
  let full_text : RetrievalResult :=
    let ftr := get_full_text_content env doc
    if ftr.success then
      { content := ftr.content
        source := "full_text"
        chunks_used := 0
        metadata := [("retrieval_method", "on_demand_extraction"),
                     ("content_type", doc.content_type)] }
    else
      { content := []
        source := "error"
        chunks_used := 0
        error := some (ftr.error.getD "Failed to retrieve content")
        metadata := [] }
  if has_embeddings then
    let rag_result := get_rag_content env.vquery document_id task_type chunk_count
    if rag_result.success = true ∧ min_content_length ≤ rag_result.content.length then
      { content := rag_result.content
        source := "rag"
        chunks_used := rag_result.chunks_used
        metadata := [("retrieval_method", "vector_similarity"),
                     ("task_context", task_type)] }
    else full_text
  else full_text

/-- Concrete input for the delimiter-order behavior of `chunk_text`: in
the first window `[0, 10)` both `". "` (at index 6) and `"! "` (at index
8) have qualifying occurrences; the code snaps to `". "` because it comes
first in the list, not to the later `"! "`. -/
def c4Text : PyStr := pyStr "aaaaaa. ! zzzz"

/-- Concrete vector-store collaborator used to witness theorem
hypotheses about the RAG query path. -/
def c10Vq : PyStr → Nat → Option String → Except PyErr VQueryOut :=
  fun _ _ _ => .error ⟨"store down"⟩

/-- Concrete always-failing embedding collaborator. -/
def c5Embed : PyStr → Except PyErr (List ℚ) := fun _ => .error ⟨"quota exceeded"⟩

/-- Concrete one-record store owned by document `"b"`, with trivial
embedding and distance collaborators, used for the filter-isolation
counterexample and witness. -/
def c6Meta : ChunkMeta :=
  { document_id := "b", chunk_index := 0, total_chunks := 1,
    chunk_length := 5, extra := [] }

def c6Store : List ChromaRecord :=
  [{ id := "b_chunk_0", embedding := [1], document := pyStr "hello",
     metadata := c6Meta }]

def c6EmbedQ : PyStr → Except PyErr (List ℚ) := fun _ => .ok [1]

def c6Dist : List ℚ → List ℚ → ℚ := fun _ _ => 0

/-- Concrete two-document store with unique chunk ids. -/
def c7Store : List ChromaRecord :=
  [{ id := "a_chunk_0", embedding := [1], document := pyStr "alpha",
     metadata := { document_id := "a", chunk_index := 0, total_chunks := 1,
                   chunk_length := 5, extra := [] } },
   { id := "b_chunk_0", embedding := [2], document := pyStr "beta",
     metadata := { document_id := "b", chunk_index := 0, total_chunks := 1,
                   chunk_length := 4, extra := [] } }]

/-- Environment in which every collaborator fails. -/
def envFail : RagEnv :=
  { vquery := fun _ _ _ => .error ⟨"store down"⟩
    process_youtube := fun _ => .error ⟨"no network"⟩
    process_webpage := fun _ => .error ⟨"no network"⟩
    extract_content_on_demand := fun _ _ => .error ⟨"file missing"⟩ }

/-- An indexed PDF document whose extraction also fails under `envFail`. -/
def docFail : Document :=
  { id := "doc-1", vector_db_reference_id := some "ref-1", content_type := "pdf",
    file_url := "", file_path := some "/uploads/a.pdf" }

/-- A 500-character chunk text, exactly at the quality floor. -/
def longText : PyStr := List.replicate 500 'a'

/-- Metadata of the single chunk served by `envRag`. -/
def c1Meta : ChunkMeta :=
  { document_id := "doc-2", chunk_index := 0, total_chunks := 1,
    chunk_length := 500, extra := [] }

/-- Environment whose vector store returns one 500-character chunk. -/
def envRag : RagEnv :=
  { vquery := fun _ _ _ => .ok
      { success := true
        results := [{ text := longText, metadata := c1Meta,
                      distance := some 0, similarity := some 1 }]
        count := 1 }
    process_youtube := fun _ => .error ⟨"no network"⟩
    process_webpage := fun _ => .error ⟨"no network"⟩
    extract_content_on_demand := fun _ _ => .error ⟨"file missing"⟩ }

/-- An indexed document served by `envRag`. -/
def docRag : Document :=
  { id := "doc-2", vector_db_reference_id := some "ref-2", content_type := "pdf",
    file_url := "", file_path := none }

/-- Concrete input for the chunker's missing parameter validation: eight
characters with `chunk_size = overlap = 4`. -/
def c3Text : PyStr := List.replicate 8 'a'

theorem c3_step (fuel : Nat) (acc : List PyStr) :
    chunk_text_aux c3Text 4 4 (fuel + 1) 0 acc =
      chunk_text_aux c3Text 4 4 fuel 0 (pyStr "aaaa" :: acc) := rfl

theorem c3_aux (fuel : Nat) : ∀ acc : List PyStr,
    chunk_text_aux c3Text 4 4 fuel 0 acc = none := by
  induction fuel with
  | zero => intro acc; rfl
  | succ n ih => intro acc; rw [c3_step]; exact ih _

/-- C3: `chunk_text` performs no validation of `overlap >= chunk_size`; on
the 8-character input with `chunk_size = overlap = 4` the `while` loop
never advances `start`, so no fuel suffices: the call neither raises an
input error nor terminates. -/
theorem C3_invalid_overlap_never_terminates (fuel : Nat) :
    chunk_text c3Text 4 4 fuel = none :=
  c3_aux fuel []

/-- C4 counterexample: the first window of `chunk_text c4Text 10 2` ends
at 8 (just after the last `". "`), whereas the latest qualifying delimiter
occurrence over all six delimiters ends at 10 (just after `"! "`), so the
claim as stated fails on this input. -/
theorem C4_counterexample :
    chunk_text c4Text 10 2 3 = some [pyStr "aaaaaa.", pyStr ". ! zzzz"] ∧
    findSnap (pySlice c4Text 0 10) 10 sentenceSeps = some 8 ∧
    specLatestSnapEnd (pySlice c4Text 0 10) 10 = some 10 ∧
    some (8 : Int) ≠ some (10 : Int) := by
  refine ⟨by decide, by decide, by decide, by decide⟩

theorem findSnap_eq_first (win : List Char) (cs : Nat) :
    ∀ seps : List (List Char),
      findSnap win cs seps =
        match seps.find? (fun sep => 2 * rfind win sep > (cs : Int)) with
        | some sep => some (rfind win sep + (sep.length : Int))
        | none => none := by
  intro seps
  induction seps with
  | nil => rfl
  | cons sep rest ih =>
      by_cases h : 2 * rfind win sep > (cs : Int)
      · simp [findSnap, List.find?_cons, h]
      · simp [findSnap, List.find?_cons, h, ih]

/-- C4 amended: for every window and chunk size, the snapped window end of
`chunk_text` is the one determined by the *first* delimiter in the fixed
order `". ", ".\n", "! ", "!\n", "? ", "?\n"` that has an occurrence in
the last 50% of the window; the window then ends just after the last
occurrence of that delimiter. -/
theorem C4_first_qualifying_delimiter_wins (win : List Char) (cs : Nat) :
    findSnap win cs sentenceSeps = specFirstSnapEnd win cs :=
  findSnap_eq_first win cs sentenceSeps

/-- C8: every result item of `VectorStore.query` reports
`similarity = 1 - distance`. -/
theorem C8_similarity_is_one_minus_distance
    (embedQuery : PyStr → Except PyErr (List ℚ)) (dist : List ℚ → List ℚ → ℚ)
    (store : List ChromaRecord) (query_text : PyStr) (n_results : Nat)
    (document_id : Option String) :
    ((vs_query embedQuery dist store query_text n_results document_id).results).all
      (fun item => decide (item.similarity = item.distance.map (fun d => 1 - d))) = true := by
  unfold vs_query
  cases embedQuery query_text with
  | error e => rfl
  | ok qe =>
      simp only [List.all_eq_true, List.mem_map]
      rintro item ⟨r, hr, rfl⟩
      simp

/-- C10: for any task type outside the three-key lookup table (including
`"chat"`), `_get_rag_content` uses the fixed default query
`"key information important content"` and behaves exactly as the same
retrieval with that query; the unrecognized task type changes nothing
else. -/
theorem C10_unknown_task_uses_default_query
    (vquery : PyStr → Nat → Option String → Except PyErr VQueryOut)
    (document_id : String) (chunk_count : Nat) (task_type : String)
    (h : task_type ∉ ["summary", "notes", "quiz"]) :
    taskQuery task_type = pyStr "key information important content" ∧
    get_rag_content vquery document_id task_type chunk_count =
      ragWithQuery vquery document_id (pyStr "key information important content")
        chunk_count := by
  have h1 : task_type ≠ "summary" := fun hh => h (by simp [hh])
  have h2 : task_type ≠ "notes" := fun hh => h (by simp [hh])
  have h3 : task_type ≠ "quiz" := fun hh => h (by simp [hh])
  have b1 : (task_type == "summary") = false := beq_eq_false_iff_ne.mpr h1
  have b2 : (task_type == "notes") = false := beq_eq_false_iff_ne.mpr h2
  have b3 : (task_type == "quiz") = false := beq_eq_false_iff_ne.mpr h3
  have hq : taskQuery task_type = pyStr "key information important content" := by
    simp [taskQuery, task_queries, List.lookup, b1, b2, b3]
  exact ⟨hq, by rw [get_rag_content, hq]⟩

/-- C10 witness: `"chat"` is not a key of the lookup table, so chat-task
retrieval runs with the default query. -/
theorem C10_witness :
    taskQuery "chat" = pyStr "key information important content" ∧
    get_rag_content c10Vq "doc-9" "chat" 5 =
      ragWithQuery c10Vq "doc-9" (pyStr "key information important content") 5 :=
  C10_unknown_task_uses_default_query c10Vq "doc-9" 5 "chat" (by decide)

/-- C5: if embedding any chunk fails during `add_document`, the method
returns `success = False` with the exception's message and the collection
is left exactly as it was: no chunk of the document is stored. -/
theorem C5_embed_failure_is_atomic (embed : PyStr → Except PyErr (List ℚ))
    (store : List ChromaRecord) (document_id : String) (text : PyStr)
    (metadata : Option (List (String × String))) (fuel : Nat)
    (chunks : List PyStr) (e : PyErr)
    (hc : chunk_text text 1000 200 fuel = some chunks)
    (he : embedAll embed chunks = .error e) :
    add_document embed store document_id text metadata fuel =
      some ({ success := false, error := some e.msg }, store) := by
  have hne : chunks.isEmpty = false := by
    cases chunks with
    | nil => simp [embedAll] at he
    | cons c cs => rfl
  unfold add_document
  rw [hc]
  simp only [hne, Bool.false_eq_true, if_false, he]

/-- C5 witness: a failing embedding call on a one-chunk document leaves an
empty collection empty and reports the failure. -/
theorem C5_witness :
    add_document c5Embed [] "doc1" (pyStr "hello world") none 1 =
      some ({ success := false, error := some "quota exceeded" }, []) :=
  C5_embed_failure_is_atomic c5Embed [] "doc1" (pyStr "hello world") none 1
    [pyStr "hello world"] ⟨"quota exceeded"⟩ (by decide) rfl

theorem mem_insertByDist {d : ChromaRecord → ℚ} {r x : ChromaRecord} :
    ∀ {l : List ChromaRecord}, x ∈ insertByDist d r l → x = r ∨ x ∈ l := by
  intro l
  induction l with
  | nil =>
      intro h
      rw [show insertByDist d r [] = [r] from rfl] at h
      exact Or.inl (List.mem_singleton.mp h)
  | cons a as ih =>
      intro h
      unfold insertByDist at h
      split at h
      · rcases List.mem_cons.mp h with h | h
        · exact Or.inr (List.mem_cons.mpr (Or.inl h))
        · rcases ih h with h | h
          · exact Or.inl h
          · exact Or.inr (List.mem_cons.mpr (Or.inr h))
      · rcases List.mem_cons.mp h with h | h
        · exact Or.inl h
        · exact Or.inr h

theorem mem_sortByDist_aux (d : ChromaRecord → ℚ) :
    ∀ (l acc : List ChromaRecord) (x : ChromaRecord),
      x ∈ l.foldl (fun a r => insertByDist d r a) acc → x ∈ acc ∨ x ∈ l := by
  intro l
  induction l with
  | nil => intro acc x h; exact Or.inl h
  | cons a as ih =>
      intro acc x h
      rcases ih (insertByDist d a acc) x h with h | h
      · rcases mem_insertByDist h with h | h
        · exact Or.inr (List.mem_cons.mpr (Or.inl h))
        · exact Or.inl h
      · exact Or.inr (List.mem_cons.mpr (Or.inr h))

theorem mem_sortByDist {d : ChromaRecord → ℚ} {l : List ChromaRecord}
    {x : ChromaRecord} (h : x ∈ sortByDist d l) : x ∈ l := by
  rcases mem_sortByDist_aux d l [] x h with h | h
  · cases h
  · exact h

theorem mem_chromaQuery_filtered {dist : List ℚ → List ℚ → ℚ}
    {store : List ChromaRecord} {qe : List ℚ} {n : Nat} {A : String}
    {r : ChromaRecord} (h : r ∈ chromaQueryRecords dist store qe n (some A)) :
    r.metadata.document_id = A := by
  unfold chromaQueryRecords at h
  have h1 := mem_sortByDist (List.mem_of_mem_take h)
  have h2 := List.mem_filter.mp h1
  simpa using h2.2

/-- C6 counterexample: with the empty string as the filter document id,
`VectorStore.query` drops the filter (Python truthiness of
`if document_id:`) and returns a chunk of document `"b"`, whose metadata
document id differs from the requested `""`. -/
theorem C6_counterexample :
    ((vs_query c6EmbedQ c6Dist c6Store (pyStr "q") 1 (some "")).results).map
        (fun item => item.metadata.document_id) = ["b"] ∧
      ("b" : String) ≠ "" := by
  exact ⟨by decide, by decide⟩

/-- C6 amended: for every *non-empty* filter document id `A`, every item
returned by `VectorStore.query` has `metadata.document_id = A`, whatever
the distance function and the other documents' vectors. -/
theorem C6_filter_isolation (embedQuery : PyStr → Except PyErr (List ℚ))
    (dist : List ℚ → List ℚ → ℚ) (store : List ChromaRecord)
    (query_text : PyStr) (n_results : Nat) (A : String) (hA : A ≠ "") :
    ((vs_query embedQuery dist store query_text n_results (some A)).results).all
      (fun item => item.metadata.document_id == A) = true := by
  unfold vs_query
  cases embedQuery query_text with
  | error e => rfl
  | ok qe =>
      simp only [List.all_eq_true, List.mem_map, if_neg hA]
      rintro item ⟨r, hr, rfl⟩
      simpa using mem_chromaQuery_filtered hr

/-- C6 witness: with the non-empty filter `"b"` on the concrete store,
every returned item belongs to document `"b"`. -/
theorem C6_filter_isolation_witness :
    ((vs_query c6EmbedQ c6Dist c6Store (pyStr "q") 1 (some "b")).results).all
      (fun item => item.metadata.document_id == "b") = true :=
  C6_filter_isolation c6EmbedQ c6Dist c6Store (pyStr "q") 1 "b" (by decide)

/-- C7: under the collection invariant that chunk ids are unique,
`delete_document` reports success, returns the number of chunks whose
metadata matches the document id, and leaves the store holding exactly the
chunks of the other documents; in particular deleting a document with no
chunks returns `deleted_chunks = 0` as a success. -/
theorem C7_delete_exactly_own_chunks (store : List ChromaRecord)
    (document_id : String) (h : (store.map (fun r => r.id)).Nodup) :
    (delete_document store document_id).1.success = true ∧
    (delete_document store document_id).1.deleted_chunks =
      (store.filter (fun r => decide (r.metadata.document_id = document_id))).length ∧
    (delete_document store document_id).2 =
      store.filter (fun r => decide (r.metadata.document_id ≠ document_id)) := by
  cases hm : chromaGet store document_id with
  | nil =>
      have hnone : ∀ r ∈ store, ¬ r.metadata.document_id = document_id := by
        intro r hr hcontra
        have hrm : r ∈ chromaGet store document_id :=
          List.mem_filter.mpr ⟨hr, by simpa using hcontra⟩
        rw [hm] at hrm
        cases hrm
      have hfil : store.filter (fun r => decide (r.metadata.document_id = document_id)) = [] := hm
      have hfil2 : store.filter (fun r => decide (r.metadata.document_id ≠ document_id)) = store :=
        List.filter_eq_self.mpr (fun a ha => by simpa using hnone a ha)
      have hres : delete_document store document_id =
          ({ success := true, deleted_chunks := 0,
             message := some "No chunks found for document" }, store) := by
        unfold delete_document
        rw [hm]
        rfl
      rw [hres]
      exact ⟨rfl, by simp [hfil], hfil2.symm⟩
  | cons a as =>
      have hcond : (((chromaGet store document_id).map (fun r => r.id)).isEmpty) = false := by
        rw [hm]; rfl
      have hmem : ∀ r ∈ store,
          (decide (r.id ∉ (chromaGet store document_id).map (fun r => r.id))) =
            (decide (r.metadata.document_id ≠ document_id)) := by
        intro r hr
        have hiff : r.id ∈ (chromaGet store document_id).map (fun r => r.id) ↔
            r.metadata.document_id = document_id := by
          constructor
          · intro hid
            rcases List.mem_map.mp hid with ⟨r', hr', hid'⟩
            have hr'store := (List.mem_filter.mp hr').1
            have heq : r' = r := List.inj_on_of_nodup_map h hr'store hr hid'
            subst heq
            simpa using (List.mem_filter.mp hr').2
          · intro hd
            exact List.mem_map.mpr ⟨r, List.mem_filter.mpr ⟨hr, by simpa using hd⟩, rfl⟩
        exact decide_eq_decide.mpr (not_congr hiff)
      have hres : delete_document store document_id =
          ({ success := true,
             deleted_chunks := ((chromaGet store document_id).map (fun r => r.id)).length },
           chromaDelete store ((chromaGet store document_id).map (fun r => r.id))) := by
        unfold delete_document
        simp only [hcond, Bool.false_eq_true, if_false]
      rw [hres]
      refine ⟨rfl, ?_, ?_⟩
      · simp [chromaGet]
      · unfold chromaDelete
        exact List.filter_congr hmem

/-- C7 witness: deleting `"a"` from the two-document store removes exactly
document `"a"`'s chunk and reports one deleted chunk. -/
theorem C7_witness :
    (delete_document c7Store "a").1.success = true ∧
    (delete_document c7Store "a").1.deleted_chunks =
      (c7Store.filter (fun r => decide (r.metadata.document_id = "a"))).length ∧
    (delete_document c7Store "a").2 =
      c7Store.filter (fun r => decide (r.metadata.document_id ≠ "a")) :=
  C7_delete_exactly_own_chunks c7Store "a" (by decide)

theorem get_rag_content_success_pos
    (vquery : PyStr → Nat → Option String → Except PyErr VQueryOut)
    (d t : String) (c : Nat)
    (hs : (get_rag_content vquery d t c).success = true) :
    0 < (get_rag_content vquery d t c).chunks_used := by
  unfold get_rag_content ragWithQuery at hs ⊢
  cases hq : vquery (taskQuery t) c (some d) with
  | error e => rw [hq] at hs; simp at hs
  | ok out =>
      rw [hq] at hs
      dsimp only at hs
      dsimp only
      by_cases hc : out.success = true ∧ out.results ≠ []
      · rw [if_pos hc]
        exact List.length_pos.mpr hc.2
      · rw [if_neg hc] at hs
        simp at hs

/-- C1: `get_content_for_generation` maintains the RetrievalResult
invariants: a `source = "rag"` result uses at least one chunk and its
content reaches the 500-character quality floor, and a `source = "error"`
result has empty content. -/
theorem C1_rag_and_error_invariants (env : RagEnv) (doc : Document)
    (task_type : String) (chunk_count : Nat) :
    ((get_content_for_generation env doc task_type chunk_count).source = "rag" →
      0 < (get_content_for_generation env doc task_type chunk_count).chunks_used ∧
      min_content_length ≤
        (get_content_for_generation env doc task_type chunk_count).content.length) ∧
    ((get_content_for_generation env doc task_type chunk_count).source = "error" →
      (get_content_for_generation env doc task_type chunk_count).content = []) := by
  simp only [get_content_for_generation]
  by_cases hemb : truthyOptStr doc.vector_db_reference_id = true
  · rw [if_pos hemb]
    by_cases hrag :
        (get_rag_content env.vquery doc.id task_type chunk_count).success = true ∧
        min_content_length ≤
          (get_rag_content env.vquery doc.id task_type chunk_count).content.length
    · rw [if_pos hrag]
      constructor
      · intro _
        exact ⟨get_rag_content_success_pos env.vquery doc.id task_type chunk_count
                 hrag.1, hrag.2⟩
      · intro hcontra
        simp at hcontra
    · rw [if_neg hrag]
      by_cases hft : (get_full_text_content env doc).success = true
      · rw [if_pos hft]
        constructor
        · intro hcontra; simp at hcontra
        · intro hcontra; simp at hcontra
      · rw [if_neg hft]
        exact ⟨fun hcontra => by simp at hcontra, fun _ => rfl⟩
  · rw [if_neg hemb]
    by_cases hft : (get_full_text_content env doc).success = true
    · rw [if_pos hft]
      exact ⟨fun hcontra => by simp at hcontra,
             fun hcontra => by simp at hcontra⟩
    · rw [if_neg hft]
      exact ⟨fun hcontra => by simp at hcontra, fun _ => rfl⟩

/-- C2: `get_content_for_generation` is a total function of its
collaborators' behaviors (every raised collaborator exception is caught by
the helpers), its `source` is always one of `"rag"`, `"full_text"`,
`"error"`, and when full-text extraction fails and the RAG path is not
used it returns empty content, `source = "error"`, and an error message. -/
theorem C2_error_boundary_structured (env : RagEnv) (doc : Document)
    (task_type : String) (chunk_count : Nat) :
    ((get_content_for_generation env doc task_type chunk_count).source = "rag" ∨
     (get_content_for_generation env doc task_type chunk_count).source = "full_text" ∨
     (get_content_for_generation env doc task_type chunk_count).source = "error") ∧
    ((get_full_text_content env doc).success = false →
      (¬ (truthyOptStr doc.vector_db_reference_id = true ∧
          (get_rag_content env.vquery doc.id task_type chunk_count).success = true ∧
          min_content_length ≤
            (get_rag_content env.vquery doc.id task_type chunk_count).content.length)) →
      (get_content_for_generation env doc task_type chunk_count).content = [] ∧
      (get_content_for_generation env doc task_type chunk_count).source = "error" ∧
      ((get_content_for_generation env doc task_type chunk_count).error).isSome = true) := by
  simp only [get_content_for_generation]
  by_cases hemb : truthyOptStr doc.vector_db_reference_id = true
  · rw [if_pos hemb]
    by_cases hrag :
        (get_rag_content env.vquery doc.id task_type chunk_count).success = true ∧
        min_content_length ≤
          (get_rag_content env.vquery doc.id task_type chunk_count).content.length
    · rw [if_pos hrag]
      refine ⟨Or.inl rfl, ?_⟩
      intro _ hnot
      exact absurd ⟨hemb, hrag.1, hrag.2⟩ hnot
    · rw [if_neg hrag]
      by_cases hft : (get_full_text_content env doc).success = true
      · rw [if_pos hft]
        refine ⟨Or.inr (Or.inl rfl), ?_⟩
        intro hft' _
        rw [hft'] at hft
        cases hft
      · rw [if_neg hft]
        exact ⟨Or.inr (Or.inr rfl), fun _ _ => ⟨rfl, rfl, rfl⟩⟩
  · rw [if_neg hemb]
    by_cases hft : (get_full_text_content env doc).success = true
    · rw [if_pos hft]
      refine ⟨Or.inr (Or.inl rfl), ?_⟩
      intro hft' _
      rw [hft'] at hft
      cases hft
    · rw [if_neg hft]
      exact ⟨Or.inr (Or.inr rfl), fun _ _ => ⟨rfl, rfl, rfl⟩⟩

set_option maxRecDepth 100000 in
/-- C1 witness: a successful RAG retrieval satisfies the rag conjunct, and
a doubly-failing retrieval satisfies the error conjunct. -/
theorem C1_witness :
    (0 < (get_content_for_generation envRag docRag "summary" 5).chunks_used ∧
      min_content_length ≤
        (get_content_for_generation envRag docRag "summary" 5).content.length) ∧
    (get_content_for_generation envFail docFail "summary" 5).content = [] :=
  ⟨(C1_rag_and_error_invariants envRag docRag "summary" 5).1 (by decide),
   (C1_rag_and_error_invariants envFail docFail "summary" 5).2 (by decide)⟩

/-- C2 witness: when the store is down and extraction fails, the result is
the structured error outcome. -/
theorem C2_witness :
    (get_content_for_generation envFail docFail "summary" 5).content = [] ∧
    (get_content_for_generation envFail docFail "summary" 5).source = "error" ∧
    ((get_content_for_generation envFail docFail "summary" 5).error).isSome = true :=
  (C2_error_boundary_structured envFail docFail "summary" 5).2 (by decide) (by decide)

theorem chunk_text_aux_done (text : PyStr) (cs ov fuel : Nat) (start : Int)
    (acc : List PyStr) (h : ¬ start < (text.length : Int)) :
    chunk_text_aux text cs ov fuel start acc = some acc.reverse := by
  cases fuel with
  | zero => simp [chunk_text_aux, h]
  | succ n => simp [chunk_text_aux, h]

theorem pySlice_zero_len (text : PyStr) :
    pySlice text 0 ((text.length : Int)) = text := by
  unfold pySlice sliceIdx
  have h1 : ¬ ((text.length : Int) < 0) := by omega
  have h2 : ¬ ((0 : Int) < 0) := by omega
  rw [if_neg h1, if_neg h2]
  simp

theorem mem_pySlice {text : PyStr} {a b : Int} {c : Char}
    (h : c ∈ pySlice text a b) : c ∈ text := by
  unfold pySlice at h
  exact List.mem_of_mem_take (List.mem_of_mem_drop h)

theorem not_prefix_of_space (l : List Char) (c0 : Char) (rest : List Char)
    (hc0 : pyIsSpace c0 = false) (hws : ∀ c ∈ l, pyIsSpace c = true) :
    (c0 :: rest).isPrefixOf l = false := by
  cases l with
  | nil => rfl
  | cons a as =>
      have ha := hws a (List.mem_cons_self a as)
      have hbeq : (c0 == a) = false := by
        cases hb : c0 == a with
        | false => rfl
        | true =>
            have hca : c0 = a := beq_iff_eq.mp hb
            rw [hca, ha] at hc0
            cases hc0
      simp [List.isPrefixOf, hbeq]

theorem rfind_all_space (win : PyStr) (c0 : Char) (rest : List Char)
    (hc0 : pyIsSpace c0 = false) (hws : ∀ c ∈ win, pyIsSpace c = true) :
    rfind win (c0 :: rest) = -1 := by
  unfold rfind
  suffices hsuf : ∀ i : Nat, rfindFrom win (c0 :: rest) i = -1 from hsuf win.length
  intro i
  induction i with
  | zero => simp [rfindFrom, not_prefix_of_space win c0 rest hc0 hws]
  | succ n ih =>
      have hd : ∀ c ∈ win.drop (n + 1), pyIsSpace c = true :=
        fun c hc => hws c (List.mem_of_mem_drop hc)
      simp [rfindFrom, not_prefix_of_space (win.drop (n + 1)) c0 rest hc0 hd, ih]

theorem findSnap_all_space (win : PyStr) (cs : Nat)
    (hws : ∀ c ∈ win, pyIsSpace c = true) :
    findSnap win cs sentenceSeps = none := by
  have h1 : rfind win ['.', ' '] = -1 := rfind_all_space win '.' [' '] (by decide) hws
  have h2 : rfind win ['.', '\n'] = -1 := rfind_all_space win '.' ['\n'] (by decide) hws
  have h3 : rfind win ['!', ' '] = -1 := rfind_all_space win '!' [' '] (by decide) hws
  have h4 : rfind win ['!', '\n'] = -1 := rfind_all_space win '!' ['\n'] (by decide) hws
  have h5 : rfind win ['?', ' '] = -1 := rfind_all_space win '?' [' '] (by decide) hws
  have h6 : rfind win ['?', '\n'] = -1 := rfind_all_space win '?' ['\n'] (by decide) hws
  have hneg : ¬ (2 * (-1 : Int) > ((cs : Nat) : Int)) := by omega
  have hneg2 : ¬ (((cs : Nat) : Int) < -2) := by omega
  simp [findSnap, sentenceSeps, h1, h2, h3, h4, h5, h6, hneg, hneg2]

theorem strip_all_space (l : PyStr) (hws : ∀ c ∈ l, pyIsSpace c = true) :
    strip l = [] := by
  unfold strip
  rw [List.dropWhile_eq_nil_iff.mpr hws]
  rfl

theorem chunkIter_ws_lt (text : PyStr) (cs ov : Nat) (start : Int)
    (acc : List PyStr) (hws : ∀ c ∈ text, pyIsSpace c = true)
    (hlt : start + (cs : Int) < (text.length : Int)) :
    chunkIter text cs ov start acc = (start + (cs : Int) - (ov : Int), acc) := by
  have hmin : min (start + (cs : Int)) ((text.length : Int)) = start + (cs : Int) := by
    omega
  have hsnap : findSnap (pySlice text start (start + (cs : Int))) cs sentenceSeps = none :=
    findSnap_all_space _ cs (fun c hc => hws c (mem_pySlice hc))
  have hchunk : strip (pySlice text start (start + (cs : Int))) = [] :=
    strip_all_space _ (fun c hc => hws c (mem_pySlice hc))
  unfold chunkIter
  dsimp only
  rw [hmin, if_pos hlt, hsnap]
  dsimp only
  rw [hchunk]
  dsimp only [List.isEmpty]
  rw [if_pos hlt]
  rfl

theorem chunkIter_ws_ge (text : PyStr) (cs ov : Nat) (start : Int)
    (acc : List PyStr) (hws : ∀ c ∈ text, pyIsSpace c = true)
    (hge : ¬ start + (cs : Int) < (text.length : Int)) :
    chunkIter text cs ov start acc = ((text.length : Int), acc) := by
  have hmin : min (start + (cs : Int)) ((text.length : Int)) = (text.length : Int) := by
    omega
  have hnlt : ¬ ((text.length : Int) < (text.length : Int)) := by omega
  have hchunk : strip (pySlice text start ((text.length : Int))) = [] :=
    strip_all_space _ (fun c hc => hws c (mem_pySlice hc))
  unfold chunkIter
  dsimp only
  rw [hmin, if_neg hnlt]
  rw [hchunk]
  dsimp only [List.isEmpty]
  rw [if_neg hnlt]
  rfl

theorem chunk_text_aux_ws (text : PyStr) (cs ov : Nat)
    (hws : ∀ c ∈ text, pyIsSpace c = true) (hov : ov < cs) :
    ∀ (fuel : Nat) (start : Int) (acc : List PyStr),
      0 ≤ start → (text.length : Int) - start < fuel →
      chunk_text_aux text cs ov fuel start acc = some acc.reverse := by
  have hovi : (ov : Int) < (cs : Int) := by exact_mod_cast hov
  intro fuel
  induction fuel with
  | zero =>
      intro start acc h0 hf
      exact chunk_text_aux_done text cs ov 0 start acc (by omega)
  | succ n ih =>
      intro start acc h0 hf
      by_cases hs : start < (text.length : Int)
      · rw [chunk_text_aux, if_pos hs]
        by_cases hlt : start + (cs : Int) < (text.length : Int)
        · rw [chunkIter_ws_lt text cs ov start acc hws hlt]
          exact ih (start + (cs : Int) - (ov : Int)) acc (by omega) (by omega)
        · rw [chunkIter_ws_ge text cs ov start acc hws hlt]
          exact chunk_text_aux_done text cs ov n _ acc (by omega)
      · rw [chunk_text_aux, if_neg hs]

theorem chunkIter_short (text : PyStr) (cs ov : Nat)
    (hlen : text.length < cs) (hne : strip text ≠ []) :
    chunkIter text cs ov 0 [] = ((text.length : Int), [strip text]) := by
  have hmin : min ((0 : Int) + (cs : Int)) ((text.length : Int)) = (text.length : Int) := by
    omega
  have hnlt : ¬ ((text.length : Int) < (text.length : Int)) := by omega
  have hie : (strip text).isEmpty = false := by
    cases hstrip : strip text with
    | nil => exact absurd hstrip hne
    | cons a as => rfl
  have hie' : ¬ ((strip text).isEmpty = true) := by rw [hie]; exact Bool.false_ne_true
  unfold chunkIter
  dsimp only
  rw [hmin, if_neg hnlt, pySlice_zero_len]
  rw [if_neg hie', if_neg hnlt]

/-- C9: the chunker's edge cases.  A text shorter than `chunk_size` whose
trimmed form is non-empty yields exactly one chunk holding the whole
trimmed text (for any fuel covering the single iteration); an empty or
whitespace-only text yields the empty list as a valid result (for valid
parameters `overlap < chunk_size` and enough fuel for the loop, which
advances by at least one character per iteration on such input). -/
theorem C9_short_and_blank_inputs (text : PyStr) (cs ov fuel : Nat) :
    (text.length < cs → strip text ≠ [] → 1 ≤ fuel →
      chunk_text text cs ov fuel = some [strip text]) ∧
    ((∀ c ∈ text, pyIsSpace c = true) → ov < cs → text.length < fuel →
      chunk_text text cs ov fuel = some []) := by
  constructor
  · intro hlen hne hfuel
    obtain ⟨f, rfl⟩ : ∃ f, fuel = f + 1 := ⟨fuel - 1, by omega⟩
    have htext : text ≠ [] := fun h => hne (by rw [h]; rfl)
    have h0 : (0 : Int) < (text.length : Int) := by
      exact_mod_cast List.length_pos.mpr htext
    unfold chunk_text
    rw [chunk_text_aux, if_pos h0, chunkIter_short text cs ov hlen hne]
    rw [chunk_text_aux_done text cs ov f _ _ (by omega)]
    rfl
  · intro hws hov hf
    unfold chunk_text
    have := chunk_text_aux_ws text cs ov hws hov fuel 0 [] (by omega) (by omega)
    simpa using this

/-- C9 witness: a 2-character text gives one chunk; a single space gives
the empty chunk list. -/
theorem C9_witness :
    chunk_text (pyStr "hi") 10 2 1 = some [strip (pyStr "hi")] ∧
    chunk_text (pyStr " ") 10 2 2 = some [] :=
  ⟨(C9_short_and_blank_inputs (pyStr "hi") 10 2 1).1 (by decide) (by decide) (by decide),
   (C9_short_and_blank_inputs (pyStr " ") 10 2 2).2 (by decide) (by decide) (by decide)⟩
